import Mathlib

/-! Shallow embedding of `osc_bsu_backup/bsu_backup.py` (snapshot backup and
rotation tool for block-storage volumes) and proofs about its retention,
locator, tag-parsing and authentication logic.

Remote API interaction is modelled by explicit data: the response a
`describe_*` call would return is passed in as data, and the outcome of each
`delete_snapshot` call is given by an oracle `world : String → DeleteResult`.
Raised exceptions are modelled by `Option`/`Except` results; the list of
deletion requests actually issued is returned explicitly.
-/

namespace OscBsuBackup

/-- A snapshot record as returned by `describe_snapshots`: identifier,
creation timestamp (`StartTime`, modelled as epoch seconds) and description. -/
structure Snapshot where
  snapshotId : String
  startTime : Int
  description : String
deriving DecidableEq, Repr

/-- Constant `OLD_DESCRIPTION` from the source: the three legacy description markers. -/
def OLD_DESCRIPTION : List String :=
  ["osc-bsu-backup 0.1", "osc-bsu-backup 0.0.2", "osc-bsu-backup 0.0.1"]

/-- Function `generate_description()` from the source: the current description format,
a fixed prefix followed by a UTC timestamp string (the timestamp rendering is
abstracted as the argument `ts`). -/
def generate_description (ts : String) : String :=
  "osc-bsu-backup: Automated volume snapshot - " ++ ts

/-- Outcome of one `delete_snapshot` call: success, a `ClientError` with code
`InvalidSnapshot.InUse`, or a `ClientError` with any other code. -/
inductive DeleteResult where
  | success
  | inUse
  | otherError
deriving DecidableEq, Repr

/-- The comparison used by `snaps["Snapshots"].sort(key=lambda x: x["StartTime"],
reverse=True)`: descending by `StartTime`. -/
def snapLE (a b : Snapshot) : Bool := b.startTime ≤ a.startTime

/-- The Python `list.sort(key=..., reverse=True)` call: a stable sort by
creation timestamp, newest first. -/
def sortDescByStart (snaps : List Snapshot) : List Snapshot :=
  snaps.mergeSort snapLE

/-- The snapshot fetch of both rotation functions: `describe_snapshots` with a
`volume-id` filter (server side; the per-volume response is `fetch vol`), plus,
when `rotate_only` is set, a `description` filter whose values are exactly
`OLD_DESCRIPTION` (exact match against any of the listed values). -/
def fetchSnapshots (fetch : String → List Snapshot) (vol : String)
    (rotateOnly : Bool) : List Snapshot :=
  if rotateOnly then
    (fetch vol).filter (fun s => OLD_DESCRIPTION.contains s.description)
  else fetch vol

/-- The count-policy selection of `rotate_snapshots`: if
`len(snaps) >= rotate`, sort descending by `StartTime` and mark every
snapshot at zero-based position `>= rotate`; otherwise mark nothing. -/
def countMarked (snaps : List Snapshot) (rotate : Nat) : List Snapshot :=
  if rotate ≤ snaps.length then (sortDescByStart snaps).drop rotate else []

/-- Expression `(datetime.now(timezone.utc) - snap["StartTime"]).days`: Python's
`timedelta.days` is floor division of the elapsed seconds by 86400. -/
def daysAge (now start : Int) : Int := Int.fdiv (now - start) 86400

/-- The age-policy selection of `rotate_days_snapshots`: mark every snapshot
whose whole-day age is `>= rotate`; no sorting and no count floor. -/
def ageMarked (now : Int) (snaps : List Snapshot) (rotate : Nat) : List Snapshot :=
  snaps.filter (fun s => decide ((rotate : Int) ≤ daysAge now s.startTime))

/-- The deletion loop shared by both rotation functions: attempt
`delete_snapshot` on each marked snapshot in order; on success record the id,
on `InvalidSnapshot.InUse` log and continue, on any other `ClientError`
re-raise (second component becomes `some` of the offending snapshot id and no
further snapshot is attempted). Returns the ids successfully deleted and the
propagated error, if any. -/
def deleteMarked (world : String → DeleteResult) :
    List Snapshot → List String × Option String
  | [] => ([], none)
  | s :: rest =>
    match world s.snapshotId with
    | .success =>
      let r := deleteMarked world rest
      (s.snapshotId :: r.1, r.2)
    | .inUse => deleteMarked world rest
    | .otherError => ([], some s.snapshotId)

/-- The `for vol in volumes` loop shared verbatim by `rotate_snapshots` and
`rotate_days_snapshots` (they differ only in the selection `markedOf`): per
volume, run the deletion loop on the marked snapshots; a re-raised error
propagates out of the whole function, so volumes after the failing one are
not processed. Returns the ids successfully deleted across all processed
volumes and the propagated error. -/
def rotateLoop (markedOf : String → List Snapshot)
    (world : String → DeleteResult) : List String → List String × Option String
  | [] => ([], none)
  | v :: rest =>
    let r := deleteMarked world (markedOf v)
    match r.2 with
    | some e => (r.1, some e)
    | none =>
      let r2 := rotateLoop markedOf world rest
      (r.1 ++ r2.1, r2.2)

/-- Function `rotate_snapshots(conn, volumes, rotate, rotate_only)`: per volume, fetch
the (optionally scope-filtered) snapshots, apply the count-policy selection,
and run the deletion loop. -/
def rotate_snapshots (fetch : String → List Snapshot)
    (world : String → DeleteResult) (volumes : List String) (rotate : Nat)
    (rotateOnly : Bool) : List String × Option String :=
  rotateLoop (fun v => countMarked (fetchSnapshots fetch v rotateOnly) rotate)
    world volumes

/-- Function `rotate_days_snapshots(conn, volumes, rotate, rotate_only)`: like
`rotate_snapshots` but with the age-policy selection. -/
def rotate_days_snapshots (now : Int) (fetch : String → List Snapshot)
    (world : String → DeleteResult) (volumes : List String) (rotate : Nat)
    (rotateOnly : Bool) : List String × Option String :=
  rotateLoop (fun v => ageMarked now (fetchSnapshots fetch v rotateOnly) rotate)
    world volumes

/-! Resource locator -/

/-- The `Ebs` field of a block-device mapping. -/
structure Ebs where
  volumeId : String
deriving DecidableEq, Repr

/-- One entry of an instance's `BlockDeviceMappings`. -/
structure BlockDeviceMapping where
  ebs : Ebs
deriving DecidableEq, Repr

/-- An instance as returned inside a reservation. -/
structure Instanc where
  instanceId : String
  blockDeviceMappings : List BlockDeviceMapping
deriving DecidableEq, Repr

/-- One reservation of a `describe_instances` response. -/
structure Reservation where
  instances : List Instanc
deriving DecidableEq, Repr

/-- The volume ids listed by a `describe_instances` response, in traversal
order (reservations, then instances, then block-device mappings). -/
def reservationVolumes (reservations : List Reservation) : List String :=
  reservations.flatMap fun r =>
    r.instances.flatMap fun i => i.blockDeviceMappings.map (·.ebs.volumeId)

/-- Function `find_instance_by_id`: appends the volume id of every block-device mapping
of every instance of every reservation of the response. -/
def find_instance_by_id (reservations : List Reservation) : List String :=
  reservationVolumes reservations

/-- Function `find_instances_by_tags`: identical accumulation over the (server-side
filtered) `describe_instances` response. -/
def find_instances_by_tags (reservations : List Reservation) : List String :=
  reservationVolumes reservations

/-- A volume of a `describe_volumes` response. -/
structure Volume where
  volumeId : String
deriving DecidableEq, Repr

/-- Function `find_volumes_by_tags`: appends every volume id of the response. -/
def find_volumes_by_tags (vols : List Volume) : List String :=
  vols.map (·.volumeId)

/-! Tag-query parsing -/

/-- Python `str.split(sep)` for a one-character separator, on the character
list: splits at every occurrence of `sep`, keeping empty segments. -/
def splitChar (sep : Char) : List Char → List (List Char)
  | [] => [[]]
  | c :: cs =>
    match splitChar sep cs with
    | [] => [[]]
    | curr :: rest =>
      if c = sep then [] :: curr :: rest else (c :: curr) :: rest

/-- Expression `tag.split(':')` from the source, as a list of strings. -/
def pySplit (sep : Char) (s : String) : List String :=
  (splitChar sep s.data).map String.mk

/-- Expressions `tag.split(':')[0]` and `tag.split(':')[1]` from the source: Python
`str.split` with a separator splits at every occurrence, and indexing `[1]`
takes the second segment (raising `IndexError`, modelled as `none`, when the
string has no colon). -/
def parseTag (tag : String) : Option (String × String) :=
  match pySplit (':') tag with
  | k :: v :: _ => some (k, v)
  | _ => none

/-- Modelled from the spec: the spec's tag parsing, "splitting is on the
first colon" — key is everything before the first colon, value is the entire
remainder after it (a value containing a colon is preserved intact); no
colon at all is the error case. Written for comparison with `parseTag`,
which embeds the source. -/
def parseTagSpec (tag : String) : Option (String × String) :=
  match tag.data.dropWhile (fun c => c ≠ ':') with
  | [] => none
  | _ :: rest =>
    some (String.mk (tag.data.takeWhile (fun c => c ≠ ':')),
      String.mk rest)

/-- The filter entry built from one tag query string:
`{"Name": f"tag:{key}", "Values": [value]}`. -/
def tagFilter (tag : String) : Option (String × List String) :=
  (parseTag tag).map fun kv => ("tag:" ++ kv.1, [kv.2])

/-- The filter list of `find_volumes_by_tags` (one entry per query string);
`none` when any query string raises. `find_instances_by_tags` prepends an
`instance-state-name` filter to the same list. -/
def volumeTagFilters (tags : List String) : Option (List (String × List String)) :=
  tags.mapM tagFilter

/-! Authentication setup -/

/-- Constant `default_region` from `auth`: the canonical regions. -/
def default_region : List String :=
  ["us-east-2", "eu-west-2", "ap-northeast-1", "us-west-1", "cloudgouv-eu-west-1"]

/-- Python truthiness of an optional string: `not endpoint` is true when the
argument is `None` or the empty string. -/
def strFalsy (s : Option String) : Bool := s.getD "" == ""

/-- Check `region in default_region` with `region: Optional[str]`: `None` is never
a member. -/
def regionCanonical (region : Option String) : Bool :=
  match region with
  | some r => default_region.contains r
  | none => false

/-- The two ways `auth` can fail: the explicit `InputError` of the
endpoint/region check, and the `IndexError` of `["KeyPairs"][0]`. -/
inductive AuthError where
  | inputError
  | indexError
deriving DecidableEq, Repr

/-- Function `auth(profile, region, client_cert, endpoint)`: the endpoint/region check
runs first and raises `InputError` before any network call; otherwise a client
is built and `describe_key_pairs()` is issued (its `KeyPairs` list is the
argument `keyPairs`), whose first element is indexed unconditionally. Returns
the network calls issued and either an error or the effective endpoint of the
returned client. -/
def auth (region endpoint : Option String) (keyPairs : List String) :
    List String × Except AuthError String :=
  if strFalsy endpoint && !regionCanonical region then
    ([], .error .inputError)
  else
    let ep :=
      if strFalsy endpoint then
        "https://fcu." ++ region.getD "" ++ ".outscale.com"
      else endpoint.getD ""
    match keyPairs with
    | [] => (["describe_key_pairs"], .error .indexError)
    | _ :: _ => (["describe_key_pairs"], .ok ep)

/-- How many block-device mappings of a `describe_instances` response carry a
given volume id, summed over all reservations and instances. Used to state
that the locator output repeats ids exactly as the response does. -/
def responseVolumeCount (reservations : List Reservation) (v : String) : Nat :=
  (reservations.map fun r =>
    (r.instances.map fun i =>
      (i.blockDeviceMappings.filter fun b => b.ebs.volumeId == v).length).sum).sum

/-! Concrete test data used by witnesses and counterexamples -/

/-- Test data: two volumes, one snapshot each. -/
def exFetch : String → List Snapshot := fun v =>
  if v = "vol-x" then [⟨"snap-x", 0, "d"⟩] else [⟨"snap-y", 0, "d"⟩]

/-- Test data: deleting `snap-x` fails with a non-in-use error; everything
else succeeds. -/
def exWorld : String → DeleteResult := fun i =>
  if i = "snap-x" then .otherError else .success

/-- Test data: deleting `snap-a` fails with the in-use error; everything else
succeeds. -/
def exWorldInUse : String → DeleteResult := fun i =>
  if i = "snap-a" then .inUse else .success

/-- Test data: one volume with two snapshots, the older one named `snap-a`. -/
def exFetchAB : String → List Snapshot := fun _ =>
  [⟨"snap-a", 0, "d"⟩, ⟨"snap-b", 10, "d"⟩]

/-- Test data: a volume whose only snapshot carries the current description
marker. -/
def exFetchCurrent : String → List Snapshot := fun _ =>
  [⟨"snap-c", 0, generate_description "2026-01-01 00:00:00 UTC"⟩]

/-- Test data: a `describe_instances` response listing the same volume twice
for one instance. -/
def exReservations : List Reservation :=
  [⟨[⟨"i-1", [⟨⟨"vol-1"⟩⟩, ⟨⟨"vol-1"⟩⟩]⟩]⟩]

/-- Test data: three snapshots of one volume, out of creation order, with
distinct timestamps. -/
def exSnaps : List Snapshot :=
  [⟨"snap-1", 5, "d"⟩, ⟨"snap-2", 20, "d"⟩, ⟨"snap-3", 10, "d"⟩]

/-! Helper lemmas -/

/-- Whole-day age of a snapshot that is not newer than `now`, expressed by
natural-number division. -/
theorem daysAge_of_nonneg (now start : Int) (h : start ≤ now) :
    daysAge now start = (((now - start).toNat / 86400 : Nat) : Int) := by
  have h0 : 0 ≤ now - start := by omega
  have ht : now - start = ((now - start).toNat : Int) :=
    (Int.toNat_of_nonneg h0).symm
  unfold daysAge
  conv_lhs => rw [ht]
  exact (Int.ofNat_fdiv _ _).symm

/-- The deletion loop when no marked snapshot hits a non-in-use error: the
call does not raise, and exactly the would-succeed deletions are issued. -/
theorem deleteMarked_no_fatal (world : String → DeleteResult)
    (marked : List Snapshot)
    (h : ∀ s ∈ marked, world s.snapshotId ≠ .otherError) :
    deleteMarked world marked =
      ((marked.filter fun s => world s.snapshotId == .success).map
        (·.snapshotId), none) := by
  induction marked with
  | nil => rfl
  | cons s rest ih =>
    have hs : world s.snapshotId ≠ .otherError := h s (by simp)
    have hrest : ∀ x ∈ rest, world x.snapshotId ≠ .otherError :=
      fun x hx => h x (by simp [hx])
    cases hw : world s.snapshotId with
    | success => simp [deleteMarked, hw, ih hrest, List.filter_cons]
    | inUse => simp [deleteMarked, hw, ih hrest, List.filter_cons]
    | otherError => exact absurd hw hs

/-- The volume loop when no marked snapshot of any volume hits a non-in-use
error: no volume is skipped, nothing is raised, and the issued deletions are
the per-volume would-succeed deletions in order. -/
theorem rotateLoop_no_fatal (markedOf : String → List Snapshot)
    (world : String → DeleteResult) (volumes : List String)
    (h : ∀ v ∈ volumes, ∀ s ∈ markedOf v, world s.snapshotId ≠ .otherError) :
    rotateLoop markedOf world volumes =
      (volumes.flatMap fun v =>
        ((markedOf v).filter fun s => world s.snapshotId == .success).map
          (·.snapshotId), none) := by
  induction volumes with
  | nil => rfl
  | cons v rest ih =>
    have hv : ∀ s ∈ markedOf v, world s.snapshotId ≠ .otherError :=
      h v (by simp)
    have hrest : ∀ w ∈ rest, ∀ s ∈ markedOf w, world s.snapshotId ≠ .otherError :=
      fun w hw => h w (by simp [hw])
    simp [rotateLoop, deleteMarked_no_fatal world (markedOf v) hv, ih hrest]

/-- The volume loop when one volume raises: every volume before it is fully
processed, its own partial deletions are kept, the error propagates, and no
volume after it is processed (the result does not depend on `after`). -/
theorem rotateLoop_abort (markedOf : String → List Snapshot)
    (world : String → DeleteResult) (before after : List String) (X : String)
    (hbefore : ∀ v ∈ before, ∀ s ∈ markedOf v, world s.snapshotId ≠ .otherError)
    (hX : (deleteMarked world (markedOf X)).2.isSome) :
    rotateLoop markedOf world (before ++ X :: after) =
      (before.flatMap (fun v =>
        ((markedOf v).filter fun s => world s.snapshotId == .success).map
          (·.snapshotId)) ++ (deleteMarked world (markedOf X)).1,
       (deleteMarked world (markedOf X)).2) := by
  induction before with
  | nil =>
    obtain ⟨e, he⟩ := Option.isSome_iff_exists.mp hX
    simp [rotateLoop, he]
  | cons v rest ih =>
    have hv : ∀ s ∈ markedOf v, world s.snapshotId ≠ .otherError :=
      hbefore v (by simp)
    have hrest : ∀ w ∈ rest, ∀ s ∈ markedOf w, world s.snapshotId ≠ .otherError :=
      fun w hw => hbefore w (by simp [hw])
    simp [rotateLoop, deleteMarked_no_fatal world (markedOf v) hv, ih hrest,
      List.append_assoc]

/-- The current description marker is never one of the legacy markers: it is
strictly longer than each of them. -/
theorem generate_description_not_old (ts : String) :
    generate_description ts ∉ OLD_DESCRIPTION := by
  intro hmem
  have hlen : (generate_description ts).length = 44 + ts.length := by
    rw [generate_description, String.length_append]
    have : ("osc-bsu-backup: Automated volume snapshot - " : String).length = 44 := by
      decide
    omega
  have h1 : (("osc-bsu-backup 0.1" : String)).length = 18 := by decide
  have h2 : (("osc-bsu-backup 0.0.2" : String)).length = 20 := by decide
  have h3 : (("osc-bsu-backup 0.0.1" : String)).length = 20 := by decide
  simp only [OLD_DESCRIPTION, List.mem_cons, List.not_mem_nil, or_false] at hmem
  rcases hmem with h | h | h <;>
    · have := congrArg String.length h
      omega

/-! Theorems for the claims -/

/-- C6: Below-threshold no-op invariant: for every volume whose fetched
snapshot count is strictly less than `keep`, count-based rotation marks no
snapshot of that volume and performs no deletion at all for it. -/
theorem count_rotation_noop_below_threshold
    (fetch : String → List Snapshot) (world : String → DeleteResult)
    (v : String) (keep : Nat) (rotateOnly : Bool)
    (h : (fetchSnapshots fetch v rotateOnly).length < keep) :
    countMarked (fetchSnapshots fetch v rotateOnly) keep = [] ∧
    rotate_snapshots fetch world [v] keep rotateOnly = ([], none) := by
  have hm : countMarked (fetchSnapshots fetch v rotateOnly) keep = [] := by
    unfold countMarked
    rw [if_neg (by omega)]
  exact ⟨hm, by simp [rotate_snapshots, rotateLoop, hm, deleteMarked]⟩

/-- C6 witness: a volume with no snapshot and `keep = 1`. -/
theorem count_rotation_noop_below_threshold_witness :
    (fetchSnapshots (fun _ => []) "vol-1" false).length < 1 ∧
    (countMarked (fetchSnapshots (fun _ => []) "vol-1" false) 1 = [] ∧
     rotate_snapshots (fun _ => []) (fun _ => .success) ["vol-1"] 1 false
       = ([], none)) :=
  ⟨by decide,
   count_rotation_noop_below_threshold (fun _ => []) (fun _ => .success)
     "vol-1" 1 false (by decide)⟩

/-- C2: Age-based rotation selection rule: a snapshot (not newer than the
current time) is marked for deletion iff its whole-day age is at least
`maxAgeDays`; `maxAgeDays = 0` marks every such snapshot, a snapshot created
exactly `maxAgeDays` whole days ago is marked, and one whose whole-day age is
`maxAgeDays - 1` is retained. -/
theorem age_rotation_selection (now : Int) (snaps : List Snapshot)
    (maxAgeDays : Nat) (s : Snapshot) (hpast : s.startTime ≤ now) :
    (s ∈ ageMarked now snaps maxAgeDays ↔
      s ∈ snaps ∧ maxAgeDays ≤ (now - s.startTime).toNat / 86400) ∧
    (maxAgeDays = 0 → s ∈ snaps → s ∈ ageMarked now snaps maxAgeDays) ∧
    (s ∈ snaps → now - s.startTime = 86400 * (maxAgeDays : Int) →
      s ∈ ageMarked now snaps maxAgeDays) ∧
    (1 ≤ maxAgeDays → (now - s.startTime).toNat / 86400 = maxAgeDays - 1 →
      s ∉ ageMarked now snaps maxAgeDays) := by
  have hdays := daysAge_of_nonneg now s.startTime hpast
  have hiff : s ∈ ageMarked now snaps maxAgeDays ↔
      s ∈ snaps ∧ maxAgeDays ≤ (now - s.startTime).toNat / 86400 := by
    unfold ageMarked
    rw [List.mem_filter]
    constructor
    · rintro ⟨h1, h2⟩
      rw [decide_eq_true_eq, hdays] at h2
      exact ⟨h1, by exact_mod_cast h2⟩
    · rintro ⟨h1, h2⟩
      refine ⟨h1, ?_⟩
      rw [decide_eq_true_eq, hdays]
      exact_mod_cast h2
  refine ⟨hiff, ?_, ?_, ?_⟩
  · intro h0 hmem
    exact hiff.mpr ⟨hmem, by omega⟩
  · intro hmem hexact
    refine hiff.mpr ⟨hmem, ?_⟩
    have : (now - s.startTime).toNat = 86400 * maxAgeDays := by omega
    rw [this, Nat.mul_div_cancel_left _ (by norm_num)]
  · intro h1 hage hmem
    have := (hiff.mp hmem).2
    omega

/-- C2 witness: `maxAgeDays = 3`, one snapshot created exactly 3 whole days
before `now`. -/
theorem age_rotation_selection_witness :
    (0 : Int) ≤ 259200 ∧
    ((⟨"snap-1", 0, "d"⟩ : Snapshot) ∈
        ageMarked 259200 [⟨"snap-1", 0, "d"⟩] 3 ↔
      (⟨"snap-1", 0, "d"⟩ : Snapshot) ∈ ([⟨"snap-1", 0, "d"⟩] : List Snapshot) ∧
        3 ≤ ((259200 : Int) - 0).toNat / 86400) ∧
    (3 = 0 → (⟨"snap-1", 0, "d"⟩ : Snapshot) ∈ ([⟨"snap-1", 0, "d"⟩] : List Snapshot) →
      (⟨"snap-1", 0, "d"⟩ : Snapshot) ∈ ageMarked 259200 [⟨"snap-1", 0, "d"⟩] 3) ∧
    ((⟨"snap-1", 0, "d"⟩ : Snapshot) ∈ ([⟨"snap-1", 0, "d"⟩] : List Snapshot) →
      (259200 : Int) - 0 = 86400 * ((3 : Nat) : Int) →
      (⟨"snap-1", 0, "d"⟩ : Snapshot) ∈ ageMarked 259200 [⟨"snap-1", 0, "d"⟩] 3) ∧
    (1 ≤ 3 → ((259200 : Int) - 0).toNat / 86400 = 3 - 1 →
      (⟨"snap-1", 0, "d"⟩ : Snapshot) ∉ ageMarked 259200 [⟨"snap-1", 0, "d"⟩] 3) :=
  ⟨by decide,
   age_rotation_selection 259200 [⟨"snap-1", 0, "d"⟩] 3 ⟨"snap-1", 0, "d"⟩
     (by decide)⟩

/-- C9: Fail-fast configuration error: `auth` raises `InputError` exactly when
no (truthy) endpoint is given and the region is not canonical, and in that
case it raises before issuing any network call. -/
theorem auth_failfast (region endpoint : Option String)
    (keyPairs : List String) :
    ((auth region endpoint keyPairs).2 = .error .inputError ↔
      strFalsy endpoint = true ∧ regionCanonical region = false) ∧
    (strFalsy endpoint = true → regionCanonical region = false →
      auth region endpoint keyPairs = ([], .error .inputError)) := by
  by_cases h1 : strFalsy endpoint = true <;>
    by_cases h2 : regionCanonical region = true <;>
      cases keyPairs <;>
        simp_all [auth]

/-- C9 witness: a non-canonical region with no endpoint raises, with no
network call issued. -/
theorem auth_failfast_witness :
    (((auth (some "mars-east-1") none ["kp"]).2 = .error .inputError ↔
      strFalsy none = true ∧ regionCanonical (some "mars-east-1") = false) ∧
    (strFalsy none = true → regionCanonical (some "mars-east-1") = false →
      auth (some "mars-east-1") none ["kp"] = ([], .error .inputError))) :=
  auth_failfast (some "mars-east-1") none ["kp"]

/-- C10: after the endpoint/region check passes, `auth` always issues the
`describe_key_pairs` network call and indexes its first key pair
unconditionally, so it fails with an index error whenever the account has
zero key pairs. -/
theorem auth_indexes_first_keypair (region endpoint : Option String)
    (h : strFalsy endpoint = false ∨ regionCanonical region = true) :
    auth region endpoint [] = (["describe_key_pairs"], .error .indexError) ∧
    ∀ keyPairs : List String,
      (auth region endpoint keyPairs).1 = ["describe_key_pairs"] := by
  have hcond : (strFalsy endpoint && !regionCanonical region) = false := by
    rcases h with h | h <;> simp [h]
  constructor
  · simp [auth, hcond]
  · intro keyPairs
    cases keyPairs <;> simp [auth, hcond]

/-- C10 witness: a canonical region with no endpoint and an empty key-pair
list. -/
theorem auth_indexes_first_keypair_witness :
    (strFalsy none = false ∨ regionCanonical (some "eu-west-2") = true) ∧
    (auth (some "eu-west-2") none [] =
        (["describe_key_pairs"], .error .indexError) ∧
      ∀ keyPairs : List String,
        (auth (some "eu-west-2") none keyPairs).1 = ["describe_key_pairs"]) :=
  ⟨Or.inr (by decide),
   auth_indexes_first_keypair (some "eu-west-2") none (Or.inr (by decide))⟩

/-- Evaluation of the count-policy marks on the `exFetch` test data with
`keep = 0`. -/
theorem countMarked_fetch_exFetch (v : String) :
    countMarked (fetchSnapshots exFetch v false) 0 =
      (if v = "vol-x" then [(⟨"snap-x", 0, "d"⟩ : Snapshot)]
       else [(⟨"snap-y", 0, "d"⟩ : Snapshot)]) := by
  by_cases hv : v = "vol-x" <;>
    simp [countMarked, fetchSnapshots, exFetch, sortDescByStart, hv]

/-- C3: In-use tolerance of deletion: under either policy, when every
deletion failure is the in-use failure, rotation skips the failed item,
continues with the remaining marked snapshots, does not raise, and still
deletes every marked snapshot whose deletion would succeed. -/
theorem inuse_tolerance (fetch : String → List Snapshot)
    (world : String → DeleteResult) (volumes : List String) (keep : Nat)
    (ro : Bool) (now : Int)
    (h : ∀ i : String, world i ≠ .otherError) :
    ((rotate_snapshots fetch world volumes keep ro).2 = none ∧
      (rotate_snapshots fetch world volumes keep ro).1 =
        volumes.flatMap fun v =>
          ((countMarked (fetchSnapshots fetch v ro) keep).filter
            (fun s => world s.snapshotId == .success)).map (·.snapshotId)) ∧
    ((rotate_days_snapshots now fetch world volumes keep ro).2 = none ∧
      (rotate_days_snapshots now fetch world volumes keep ro).1 =
        volumes.flatMap fun v =>
          ((ageMarked now (fetchSnapshots fetch v ro) keep).filter
            (fun s => world s.snapshotId == .success)).map (·.snapshotId)) := by
  have hc := rotateLoop_no_fatal
    (fun v => countMarked (fetchSnapshots fetch v ro) keep) world volumes
    (fun v _ s _ => h s.snapshotId)
  have ha := rotateLoop_no_fatal
    (fun v => ageMarked now (fetchSnapshots fetch v ro) keep) world volumes
    (fun v _ s _ => h s.snapshotId)
  unfold rotate_snapshots rotate_days_snapshots
  rw [hc, ha]
  simp

/-- C3 witness: deleting `snap-a` fails in use while `snap-b` succeeds;
`snap-b` is still deleted and nothing is raised, under both policies. -/
theorem inuse_tolerance_witness :
    (∀ i : String, exWorldInUse i ≠ .otherError) ∧
    (((rotate_snapshots exFetchAB exWorldInUse ["vol-1"] 0 false).2 = none ∧
      (rotate_snapshots exFetchAB exWorldInUse ["vol-1"] 0 false).1 =
        ["vol-1"].flatMap fun v =>
          ((countMarked (fetchSnapshots exFetchAB v false) 0).filter
            (fun s => exWorldInUse s.snapshotId == .success)).map (·.snapshotId)) ∧
    ((rotate_days_snapshots 0 exFetchAB exWorldInUse ["vol-1"] 0 false).2 = none ∧
      (rotate_days_snapshots 0 exFetchAB exWorldInUse ["vol-1"] 0 false).1 =
        ["vol-1"].flatMap fun v =>
          ((ageMarked 0 (fetchSnapshots exFetchAB v false) 0).filter
            (fun s => exWorldInUse s.snapshotId == .success)).map (·.snapshotId))) :=
  have hw : ∀ i : String, exWorldInUse i ≠ .otherError := by
    intro i
    by_cases hi : i = "snap-a" <;> simp [exWorldInUse, hi]
  ⟨hw, inuse_tolerance exFetchAB exWorldInUse ["vol-1"] 0 false 0 hw⟩

/-- C4 counterexample: with volumes `[vol-x, vol-y]` and a fatal (non-in-use)
deletion error on `vol-x`, the rotation of `vol-y` — processed after the
failing volume — does not complete: its deletable snapshot `snap-y` is not
deleted, although with the opposite volume order it is. This refutes the
claim that every other volume, whether before or after the failing one, still
completes. -/
theorem volume_independence_counterexample :
    rotate_snapshots exFetch exWorld ["vol-x", "vol-y"] 0 false
        = ([], some "snap-x") ∧
    "snap-y" ∉ (rotate_snapshots exFetch exWorld ["vol-x", "vol-y"] 0 false).1 ∧
    (rotate_snapshots exFetch exWorld ["vol-y", "vol-x"] 0 false).1
        = ["snap-y"] := by
  have h1 : rotate_snapshots exFetch exWorld ["vol-x", "vol-y"] 0 false
      = ([], some "snap-x") := by
    unfold rotate_snapshots
    simp only [rotateLoop, countMarked_fetch_exFetch]
    simp [exWorld, deleteMarked]
  have h2 : rotate_snapshots exFetch exWorld ["vol-y", "vol-x"] 0 false
      = (["snap-y"], some "snap-x") := by
    unfold rotate_snapshots
    simp only [rotateLoop, countMarked_fetch_exFetch]
    simp [exWorld, deleteMarked]
  refine ⟨h1, ?_, ?_⟩
  · rw [h1]
    simp
  · rw [h2]

/-- C4 amended: a fatal, non-in-use deletion error on volume X's rotation
aborts X's remaining deletions and prevents every volume after X in the input
sequence from being processed at all; volumes processed before X have already
completed their rotation (their successful deletions stand) and the error
propagates out of the call. -/
theorem volume_independence_amended (fetch : String → List Snapshot)
    (world : String → DeleteResult) (before after : List String) (X : String)
    (keep : Nat) (ro : Bool)
    (hbefore : ∀ v ∈ before, ∀ s ∈ countMarked (fetchSnapshots fetch v ro) keep,
      world s.snapshotId ≠ .otherError)
    (hX : (deleteMarked world
      (countMarked (fetchSnapshots fetch X ro) keep)).2.isSome) :
    (rotate_snapshots fetch world (before ++ X :: after) keep ro =
      rotate_snapshots fetch world (before ++ [X]) keep ro ∧
    (rotate_snapshots fetch world (before ++ X :: after) keep ro).2.isSome ∧
    ∀ v ∈ before, ∀ s ∈ countMarked (fetchSnapshots fetch v ro) keep,
      world s.snapshotId = .success →
      s.snapshotId ∈
        (rotate_snapshots fetch world (before ++ X :: after) keep ro).1) ∧
    ∀ now : Int,
      (∀ v ∈ before, ∀ s ∈ ageMarked now (fetchSnapshots fetch v ro) keep,
        world s.snapshotId ≠ .otherError) →
      (deleteMarked world
        (ageMarked now (fetchSnapshots fetch X ro) keep)).2.isSome →
      rotate_days_snapshots now fetch world (before ++ X :: after) keep ro =
        rotate_days_snapshots now fetch world (before ++ [X]) keep ro ∧
      (rotate_days_snapshots now fetch world
        (before ++ X :: after) keep ro).2.isSome := by
  constructor
  · have h1 := rotateLoop_abort
      (fun v => countMarked (fetchSnapshots fetch v ro) keep) world before after
      X hbefore hX
    have h2 := rotateLoop_abort
      (fun v => countMarked (fetchSnapshots fetch v ro) keep) world before []
      X hbefore hX
    unfold rotate_snapshots
    rw [h1, h2]
    refine ⟨rfl, by simpa using hX, ?_⟩
    intro v hv s hs hsucc
    simp only [List.mem_append]
    left
    rw [List.mem_flatMap]
    exact ⟨v, hv, List.mem_map.mpr
      ⟨s, List.mem_filter.mpr ⟨hs, by simp [hsucc]⟩, rfl⟩⟩
  · intro now hbefore2 hX2
    have h3 := rotateLoop_abort
      (fun v => ageMarked now (fetchSnapshots fetch v ro) keep) world before
      after X hbefore2 hX2
    have h4 := rotateLoop_abort
      (fun v => ageMarked now (fetchSnapshots fetch v ro) keep) world before []
      X hbefore2 hX2
    unfold rotate_days_snapshots
    rw [h3, h4]
    exact ⟨rfl, by simpa using hX2⟩

/-- C4 amended witness: `vol-y` before the failing `vol-x`, `vol-z` after it;
the result equals the run without `vol-z`, the error propagates, and
`vol-y`'s deletion stands. -/
theorem volume_independence_amended_witness :
    (∀ v ∈ ["vol-y"], ∀ s ∈ countMarked (fetchSnapshots exFetch v false) 0,
      exWorld s.snapshotId ≠ .otherError) ∧
    (deleteMarked exWorld
      (countMarked (fetchSnapshots exFetch "vol-x" false) 0)).2.isSome ∧
    ((rotate_snapshots exFetch exWorld (["vol-y"] ++ "vol-x" :: ["vol-z"]) 0 false =
      rotate_snapshots exFetch exWorld (["vol-y"] ++ ["vol-x"]) 0 false ∧
    (rotate_snapshots exFetch exWorld (["vol-y"] ++ "vol-x" :: ["vol-z"]) 0 false).2.isSome ∧
    ∀ v ∈ ["vol-y"], ∀ s ∈ countMarked (fetchSnapshots exFetch v false) 0,
      exWorld s.snapshotId = .success →
      s.snapshotId ∈
        (rotate_snapshots exFetch exWorld (["vol-y"] ++ "vol-x" :: ["vol-z"]) 0 false).1) ∧
    ∀ now : Int,
      (∀ v ∈ ["vol-y"], ∀ s ∈ ageMarked now (fetchSnapshots exFetch v false) 0,
        exWorld s.snapshotId ≠ .otherError) →
      (deleteMarked exWorld
        (ageMarked now (fetchSnapshots exFetch "vol-x" false) 0)).2.isSome →
      rotate_days_snapshots now exFetch exWorld (["vol-y"] ++ "vol-x" :: ["vol-z"]) 0 false =
        rotate_days_snapshots now exFetch exWorld (["vol-y"] ++ ["vol-x"]) 0 false ∧
      (rotate_days_snapshots now exFetch exWorld
        (["vol-y"] ++ "vol-x" :: ["vol-z"]) 0 false).2.isSome) :=
  have hb : ∀ v ∈ ["vol-y"], ∀ s ∈ countMarked (fetchSnapshots exFetch v false) 0,
      exWorld s.snapshotId ≠ .otherError := by
    intro v hv s hs
    rw [List.mem_singleton] at hv
    subst hv
    rw [countMarked_fetch_exFetch] at hs
    simp at hs
    subst hs
    simp [exWorld]
  have hx : (deleteMarked exWorld
      (countMarked (fetchSnapshots exFetch "vol-x" false) 0)).2.isSome := by
    rw [countMarked_fetch_exFetch]
    simp [deleteMarked, exWorld]
  ⟨hb, hx, volume_independence_amended exFetch exWorld ["vol-y"] ["vol-z"]
    "vol-x" 0 false hb hx⟩

/-- Transitivity of the descending-by-timestamp comparison. -/
theorem snapLE_trans : ∀ a b c : Snapshot, snapLE a b → snapLE b c → snapLE a c := by
  intro a b c hab hbc
  simp only [snapLE, decide_eq_true_eq] at *
  omega

/-- Totality of the descending-by-timestamp comparison. -/
theorem snapLE_total : ∀ a b : Snapshot, snapLE a b || snapLE b a := by
  intro a b
  simp only [snapLE, Bool.or_eq_true, decide_eq_true_eq]
  omega

/-- C1: Count-based rotation selection rule: when the fetched count is at
least `keep`, the snapshots are stably sorted by creation timestamp
descending (a permutation of the fetch, pairwise newest-first, ties kept in
the original return order), exactly the positions `keep` and later are
marked for deletion (the `keep` newest — the sorted prefix — are never
marked), and with an all-successful remote the marked snapshots are exactly
the ones deleted. -/
theorem count_rotation_selection (snaps : List Snapshot) (keep : Nat)
    (h : keep ≤ snaps.length) :
    countMarked snaps keep = (sortDescByStart snaps).drop keep ∧
    sortDescByStart snaps =
      (sortDescByStart snaps).take keep ++ countMarked snaps keep ∧
    List.Perm (sortDescByStart snaps) snaps ∧
    (sortDescByStart snaps).Pairwise (fun a b => b.startTime ≤ a.startTime) ∧
    (∀ t : Int, (sortDescByStart snaps).filter (fun s => s.startTime == t)
      = snaps.filter (fun s => s.startTime == t)) ∧
    ∀ fetch : String → List Snapshot, ∀ v : String, ∀ ro : Bool,
      fetchSnapshots fetch v ro = snaps →
      rotate_snapshots fetch (fun _ => .success) [v] keep ro
        = ((countMarked snaps keep).map (·.snapshotId), none) := by
  have hmarked : countMarked snaps keep = (sortDescByStart snaps).drop keep := by
    unfold countMarked
    rw [if_pos h]
  have hperm : List.Perm (sortDescByStart snaps) snaps :=
    List.mergeSort_perm snaps snapLE
  refine ⟨hmarked, ?_, hperm, ?_, ?_, ?_⟩
  · rw [hmarked, List.take_append_drop]
  · exact (List.sorted_mergeSort snapLE_trans snapLE_total snaps).imp
      (fun hab => by simpa [snapLE] using hab)
  · intro t
    have hall : ∀ x ∈ snaps.filter (fun s => s.startTime == t),
        x.startTime = t := by
      intro x hx
      have := List.of_mem_filter hx
      simpa using this
    have hpw : (snaps.filter (fun s => s.startTime == t)).Pairwise
        (fun a b => snapLE a b) := by
      apply List.pairwise_of_forall_mem_list
      intro a ha b hb
      simp [snapLE, hall a ha, hall b hb]
    have hsub : List.Sublist (snaps.filter (fun s => s.startTime == t))
        (sortDescByStart snaps) :=
      List.sublist_mergeSort snapLE_trans snapLE_total hpw
        (List.filter_sublist snaps)
    have hsubf : List.Sublist (snaps.filter (fun s => s.startTime == t))
        ((sortDescByStart snaps).filter (fun s => s.startTime == t)) := by
      have := hsub.filter (fun s => s.startTime == t)
      rwa [List.filter_filter, List.filter_congr
        (fun x _ => Bool.and_self _)] at this
    have hpermf : List.Perm
        ((sortDescByStart snaps).filter (fun s => s.startTime == t))
        (snaps.filter (fun s => s.startTime == t)) :=
      hperm.filter _
    exact (hsubf.eq_of_length hpermf.length_eq.symm).symm
  · intro fetch v ro hfetch
    have hrl := rotateLoop_no_fatal
      (fun w => countMarked (fetchSnapshots fetch w ro) keep)
      (fun _ => .success) [v] (by intro w _ s _; simp)
    unfold rotate_snapshots
    rw [hrl]
    simp [hfetch, List.filter_eq_self]

/-- C1 witness: three snapshots with distinct timestamps and `keep = 2`. -/
theorem count_rotation_selection_witness :
    2 ≤ exSnaps.length ∧
    (countMarked exSnaps 2 = (sortDescByStart exSnaps).drop 2 ∧
    sortDescByStart exSnaps =
      (sortDescByStart exSnaps).take 2 ++ countMarked exSnaps 2 ∧
    List.Perm (sortDescByStart exSnaps) exSnaps ∧
    (sortDescByStart exSnaps).Pairwise (fun a b => b.startTime ≤ a.startTime) ∧
    (∀ t : Int, (sortDescByStart exSnaps).filter (fun s => s.startTime == t)
      = exSnaps.filter (fun s => s.startTime == t)) ∧
    ∀ fetch : String → List Snapshot, ∀ v : String, ∀ ro : Bool,
      fetchSnapshots fetch v ro = exSnaps →
      rotate_snapshots fetch (fun _ => .success) [v] 2 ro
        = ((countMarked exSnaps 2).map (·.snapshotId), none)) :=
  ⟨by decide, count_rotation_selection exSnaps 2 (by decide)⟩

/-- C5 (evaluation at the failing input): with the scope filter active, a
snapshot carrying the current description marker matches none of the legacy
markers in the filter, so it is invisible to rotation and is never deleted
under either policy — contradicting the claim that the current format is
among the eligible markers. -/
theorem scope_filter_excludes_current_format (ts : String)
    (fetch : String → List Snapshot) (v : String)
    (world : String → DeleteResult) (keep : Nat) (now : Int)
    (hfetch : ∀ s ∈ fetch v, s.description = generate_description ts) :
    fetchSnapshots fetch v true = [] ∧
    rotate_snapshots fetch world [v] keep true = ([], none) ∧
    rotate_days_snapshots now fetch world [v] keep true = ([], none) := by
  have hempty : fetchSnapshots fetch v true = [] := by
    unfold fetchSnapshots
    rw [if_pos rfl, List.filter_eq_nil_iff]
    intro s hs
    rw [hfetch s hs]
    intro hc
    exact generate_description_not_old ts (List.elem_iff.mp hc)
  have hcm : countMarked [] keep = [] := by
    unfold countMarked
    split <;> simp [sortDescByStart]
  refine ⟨hempty, ?_, ?_⟩
  · unfold rotate_snapshots
    simp [rotateLoop, hempty, hcm, deleteMarked]
  · unfold rotate_days_snapshots
    simp [rotateLoop, hempty, ageMarked, deleteMarked]

/-- C5 witness: a concrete snapshot carrying the current marker, scope filter
active. -/
theorem scope_filter_excludes_current_format_witness :
    (∀ s ∈ exFetchCurrent "vol-1",
      s.description = generate_description "2026-01-01 00:00:00 UTC") ∧
    (fetchSnapshots exFetchCurrent "vol-1" true = [] ∧
    rotate_snapshots exFetchCurrent exWorld ["vol-1"] 0 true = ([], none) ∧
    rotate_days_snapshots 0 exFetchCurrent exWorld ["vol-1"] 0 true
      = ([], none)) :=
  have hf : ∀ s ∈ exFetchCurrent "vol-1",
      s.description = generate_description "2026-01-01 00:00:00 UTC" := by
    intro s hs
    simp only [exFetchCurrent, List.mem_singleton] at hs
    rw [hs]
  ⟨hf, scope_filter_excludes_current_format "2026-01-01 00:00:00 UTC"
    exFetchCurrent "vol-1" exWorld 0 0 hf⟩

/-- Count of an element in a `flatMap`, as the sum of the per-piece counts. -/
theorem count_flatMap_eq_sum {α : Type} (f : α → List String) (l : List α)
    (v : String) :
    (l.flatMap f).count v = (l.map fun x => (f x).count v).sum := by
  induction l with
  | nil => rfl
  | cons x xs ih => simp [List.flatMap_cons, List.count_append, ih]

/-- Count of a value among the images of a map, as a filter length. -/
theorem count_map_eq_length_filter {α : Type} (f : α → String) (l : List α)
    (v : String) :
    (l.map f).count v = (l.filter fun x => f x == v).length := by
  induction l with
  | nil => rfl
  | cons x xs ih =>
    by_cases hx : f x = v <;>
      simp [List.count_cons, List.filter_cons, hx, ih]

/-- C7 counterexample: a response in which one instance lists the same volume
twice makes the locator return a duplicated sequence, refuting the claim that
the returned sequence never contains a duplicate identifier. -/
theorem locator_dedup_counterexample :
    find_instance_by_id exReservations = ["vol-1", "vol-1"] ∧
    ¬ (find_instance_by_id exReservations).Nodup ∧
    ¬ (find_instances_by_tags exReservations).Nodup := by
  refine ⟨by decide, ?_, ?_⟩ <;> decide

/-- C7 amended: the locator performs no deduplication: every volume
identifier appears in the returned sequence exactly as many times as the
response mentions it (so the output is duplicate-free exactly when the
response itself repeats no identifier). -/
theorem locator_no_dedup_count (reservations : List Reservation)
    (vols : List Volume) (v : String) :
    (find_instance_by_id reservations).count v
      = responseVolumeCount reservations v ∧
    (find_instances_by_tags reservations).count v
      = responseVolumeCount reservations v ∧
    (find_volumes_by_tags vols).count v
      = (vols.filter fun w => w.volumeId == v).length := by
  have hres : (reservationVolumes reservations).count v
      = responseVolumeCount reservations v := by
    unfold reservationVolumes responseVolumeCount
    rw [count_flatMap_eq_sum]
    congr 1
    apply List.map_congr_left
    intro r _
    rw [count_flatMap_eq_sum]
    congr 1
    apply List.map_congr_left
    intro i _
    exact count_map_eq_length_filter _ _ _
  exact ⟨hres, hres, count_map_eq_length_filter _ _ _⟩

/-- Structural characterization of the Python split: the first segment is the
run before the first separator, and the remaining segments are the split of
what follows the first separator. -/
theorem splitChar_eq (sep : Char) (cs : List Char) :
    splitChar sep cs = (cs.takeWhile fun c => c ≠ sep) ::
      (match cs.dropWhile (fun c => c ≠ sep) with
       | [] => []
       | _ :: rest => splitChar sep rest) := by
  induction cs with
  | nil => rfl
  | cons c cs ih =>
    by_cases hc : c = sep
    · subst hc
      simp only [splitChar, ih, List.takeWhile_cons, List.dropWhile_cons]
      simp [ih]
    · simp only [splitChar, ih, List.takeWhile_cons, List.dropWhile_cons]
      simp [hc]

/-- C8 counterexample: for the tag query `a:b:c` the source keeps as value
only the segment between the first two colons (`b`), while the claimed
split-on-first-colon rule keeps the whole remainder (`b:c`). -/
theorem tag_parse_counterexample :
    parseTag "a:b:c" = some ("a", "b") ∧
    parseTagSpec "a:b:c" = some ("a", "b:c") ∧
    parseTag "a:b:c" ≠ parseTagSpec "a:b:c" := by
  refine ⟨by decide, by decide, by decide⟩

/-- C8 amended: the source splits the tag at every colon and uses the first
two segments — key is the text before the first colon and value the text
between the first and second colon — which agrees with the spec's
split-on-first-colon rule exactly when the split yields at most two
segments, i.e. when the value contains no colon. -/
theorem tag_parse_first_colon_amended (tag : String)
    (h : (pySplit ':' tag).length ≤ 2) :
    parseTag tag = parseTagSpec tag := by
  unfold parseTag parseTagSpec
  unfold pySplit at h ⊢
  rw [splitChar_eq] at h ⊢
  cases hdrop : tag.data.dropWhile (fun c => c ≠ ':') with
  | nil => simp
  | cons d rest =>
    rw [hdrop] at h
    simp only [] at h ⊢
    rw [splitChar_eq ':' rest] at h ⊢
    cases hdrop2 : rest.dropWhile (fun c => c ≠ ':') with
    | nil =>
      have hall : ∀ x ∈ rest, x ≠ ':' := by
        simpa using List.dropWhile_eq_nil_iff.mp hdrop2
      have h2 : rest.takeWhile (fun c => !decide (c = ':')) = rest :=
        List.takeWhile_eq_self_iff.mpr (by simpa using hall)
      simp [h2]
    | cons d2 rest2 =>
      rw [hdrop2] at h
      simp only [] at h
      rw [splitChar_eq ':' rest2] at h
      simp at h

/-- C8 amended witness: a tag whose value contains no colon. -/
theorem tag_parse_first_colon_amended_witness :
    (pySplit ':' "env:prod").length ≤ 2 ∧
    parseTag "env:prod" = parseTagSpec "env:prod" :=
  ⟨by decide, tag_parse_first_colon_amended "env:prod" (by decide)⟩

end OscBsuBackup
